import Mathlib

/-
  Verification development for the dbots posting library.

  Shallow embedding of the core posting pipeline:
  - service registry and per-service request builders (src/dbots/service.py)
  - the Poster orchestrator with its key store and fan-out (src/dbots/poster.py)
  - the event dispatcher (src/dbots/eventhandler.py)
  - the recurring-loop handle discipline (src/dbots/poster.py)

  Python values are modelled as follows: JSON payloads are ordered
  association lists of JSON values; optional integers are Option Int with
  Python truthiness (None and 0 are falsy); exceptions are an inductive
  type; the HTTP transport is a parameter mapping a built request to a
  response or an exception.
-/

namespace Dbots

/-- A JSON value as it occurs in the request payloads built by the
per-service post functions (integers, strings, and null). -/
inductive JVal where
  | jint (n : Int)
  | jstr (s : String)
  | jnull
deriving DecidableEq, Repr

/-- An outbound HTTP request as assembled by a service's post builder:
method, full path, explicit headers, and the JSON payload in insertion
order.  (The transport-added headers such as User-Agent are part of the
external HTTP client and not modelled.) -/
structure Request where
  method : String
  path : String
  headers : List (String × String)
  payload : List (String × JVal)
deriving DecidableEq, Repr

/-- Model of HTTPResponse (src/dbots/http.py): the wrapped response. -/
structure HTTPResp where
  status : Nat
  body : String
  url : String
deriving DecidableEq, Repr

/-- Python exceptions relevant to the posting pipeline.
`apiKeyError` models APIKeyException, `keyError` models KeyError from a
mapping lookup, `attributeError obj attr` models AttributeError raised
when `obj` lacks attribute `attr`, `serviceError` models
ServiceException, `httpError` models the HTTPException family (which
carries the offending response), and `otherExc` models any further
exception such as a network-level error (no response attribute). -/
inductive PyExc where
  | apiKeyError (msg : String)
  | keyError (key : String)
  | attributeError (obj attr : String)
  | serviceError (msg : String)
  | httpError (resp : HTTPResp)
  | otherExc (tag : String)
deriving DecidableEq, Repr

/-- Whether the exception object carries the `response` / `status` /
`body` attributes accessed by the failure-logging line of
Poster.manual_post (poster.py lines 261-264).  Only the HTTPException
family (errors.py lines 24-35) sets them. -/
def PyExc.hasResponseAttr : PyExc → Bool
  | .httpError _ => true
  | _ => false

/-- The class name of the exception object, used to identify the object
in a modelled AttributeError. -/
def PyExc.className : PyExc → String
  | .apiKeyError _ => "APIKeyException"
  | .keyError _ => "KeyError"
  | .attributeError _ _ => "AttributeError"
  | .serviceError _ => "ServiceException"
  | .httpError _ => "HTTPException"
  | .otherExc tag => tag

/-- Python truthiness of an optional integer: None and 0 are falsy,
every other integer is truthy.  This is the test performed by
`if shard_id and shard_count:` and `if user_count:` in service.py. -/
def intTruthy : Option Int → Bool
  | none => false
  | some n => decide (n ≠ 0)

/-- The integer inside a truthy optional (used where the source reads
the value under the truthiness guard). -/
def intVal (o : Option Int) : Int := o.getD 0

/-! ## Service registry (src/dbots/service.py) -/

/-- The 26 bundled service classes, in the order of Service.SERVICES
(service.py lines 2452-2458). -/
inductive ServiceTag where
  | bladeList | blist | botsOnDiscord | carbon | dbots | discordBoats
  | discordBotList | discordBotlistEU | discordBotsGG | discordExtremeList
  | discordLabs | discordListSpace | discordListology | discordServices
  | discordsCom | disforge | fatesList | infinityBotList | listcord
  | motionBotlist | spaceBotsList | topCord | topGG | voidBots
  | wonderBotList | yabl
deriving DecidableEq, Repr

/-- The aliases() list of each service class, copied from service.py. -/
def ServiceTag.aliases : ServiceTag → List String
  | .bladeList => ["bladebotlist", "bladebotlist.xyz", "bladelist", "bladelist.gg"]
  | .blist => ["blist", "blist.xyz"]
  | .botsOnDiscord => ["botsondiscord", "bots.ondiscord.xyz"]
  | .carbon => ["carbonitex", "carbonitex.net", "carbon"]
  | .dbots => ["dbots", "dbots.co"]
  | .discordBoats => ["discordboats", "discord.boats"]
  | .discordBotList => ["discordbotlist", "discordbotlist.com"]
  | .discordBotlistEU => ["dbleu", "discordbotlisteu"]
  | .discordBotsGG => ["discordbotsgg", "discord.bots.gg"]
  | .discordExtremeList => ["discordextremelist", "discordextremelist.xyz"]
  | .discordLabs => ["discordlabs", "discordlabs.org"]
  | .discordListSpace => ["discordlistspace", "discordlist.space", "botlistspace", "botlist.space"]
  | .discordListology => ["discordlistology", "discordlistology.com"]
  | .discordServices => ["discordservices", "discordservices.net"]
  | .discordsCom => ["botsfordiscord", "botsfordiscord.com", "discords", "discords.com"]
  | .disforge => ["disforge", "disforge.com"]
  | .fatesList => ["fateslist", "fateslist.xyz"]
  | .infinityBotList => ["infinitybotlist", "infinitybotlist.com"]
  | .listcord => ["listcord", "listcord.gg"]
  | .motionBotlist => ["motion", "motiondevelopment", "motionbotlist", "motiondevelopment.top"]
  | .spaceBotsList => ["spacebotslist", "space-bot-list.xyz"]
  | .topCord => ["topcord", "topcord.xyz"]
  | .topGG => ["topgg", "top.gg"]
  | .voidBots => ["voidbots", "voidbots.net"]
  | .wonderBotList => ["wonderbotlist", "wonderbotlist.com"]
  | .yabl => ["yabl", "yabl.xyz"]

/-- Service.SERVICES, in source order (service.py lines 2452-2458). -/
def SERVICES : List ServiceTag :=
  [.bladeList, .blist, .botsOnDiscord, .carbon, .dbots, .discordBoats,
   .discordBotList, .discordBotlistEU, .discordBotsGG, .discordExtremeList,
   .discordLabs, .discordListSpace, .discordListology, .discordServices,
   .discordsCom, .disforge, .fatesList, .infinityBotList, .listcord,
   .motionBotlist, .spaceBotsList, .topCord, .topGG, .voidBots,
   .wonderBotList, .yabl]

/-- Python str.lower, modelled character-wise (the registry aliases and
lookup keys are ASCII, where Char.toLower agrees with str.lower). -/
def lowerStr (s : String) : String :=
  String.mk (s.data.map Char.toLower)

/-- Service.get (service.py lines 65-78): scan SERVICES in order and
return the first service whose alias list contains the lowercased key;
otherwise raise ServiceException with message "Invalid service".
The key is lowercased but not trimmed. -/
def Service.get (key : String) : Except PyExc ServiceTag :=
  match SERVICES.find? (fun s => s.aliases.contains (lowerStr key)) with
  | some s => .ok s
  | none => .error (.serviceError "Invalid service")

/-! ## Per-service post request builders

Each builder mirrors `X._post` from service.py with the Python parameter
order `(http_client, bot_id, token, server_count, user_count,
voice_connections, shard_count, shard_id)`, the http_client dropped
(request execution is separate).  The shard guard is always
`if shard_id and shard_count:`. -/

def BladeList.BASE_URL : String := "https://api.bladelist.gg"

/-- BladeList._post (service.py lines 115-130). -/
def BladeList.post (bot_id token : String) (server_count : Int)
    (_user_count _voice_connections : Option Int)
    (shard_count shard_id : Option Int) : Request :=
  let payload := [("server_count", JVal.jint server_count)]
  let payload := if intTruthy shard_id && intTruthy shard_count then
      payload ++ [("shard_count", JVal.jint (intVal shard_count))] else payload
  { method := "PUT", path := BladeList.BASE_URL ++ "/bots/" ++ bot_id ++ "/",
    headers := [("Authorization", token), ("Content-Type", "application/json")],
    payload := payload }

def Blist.BASE_URL : String := "https://blist.xyz/api/v2"

/-- Blist._post (service.py lines 164-179). -/
def Blist.post (bot_id token : String) (server_count : Int)
    (_user_count _voice_connections : Option Int)
    (shard_count shard_id : Option Int) : Request :=
  let payload := [("server_count", JVal.jint server_count)]
  let payload := if intTruthy shard_id && intTruthy shard_count then
      payload ++ [("shard_count", JVal.jint (intVal shard_count))] else payload
  { method := "POST", path := Blist.BASE_URL ++ "/bot/" ++ bot_id ++ "/stats",
    headers := [("Authorization", token)], payload := payload }

def BotsOnDiscord.BASE_URL : String := "https://bots.ondiscord.xyz/bot-api"

/-- BotsOnDiscord._post (service.py lines 315-327). -/
def BotsOnDiscord.post (bot_id token : String) (server_count : Int)
    (_user_count _voice_connections : Option Int)
    (_shard_count _shard_id : Option Int) : Request :=
  { method := "POST", path := BotsOnDiscord.BASE_URL ++ "/bots/" ++ bot_id ++ "/guilds",
    headers := [("Authorization", token)],
    payload := [("guildCount", JVal.jint server_count)] }

def Carbon.BASE_URL : String := "https://www.carbonitex.net/discord"

/-- Carbon._post (service.py lines 376-391): no headers argument;
payload carries the token under the key "key". -/
def Carbon.post (_bot_id token : String) (server_count : Int)
    (_user_count _voice_connections : Option Int)
    (_shard_count _shard_id : Option Int) : Request :=
  { method := "POST", path := Carbon.BASE_URL ++ "/data/botdata.php",
    headers := [],
    payload := [("key", JVal.jstr token), ("servercount", JVal.jint server_count)] }

def DBots.BASE_URL : String := "https://dbots.co/api/v1"

/-- DBots._post (service.py lines 417-429). -/
def DBots.post (bot_id token : String) (server_count : Int)
    (_user_count _voice_connections : Option Int)
    (_shard_count _shard_id : Option Int) : Request :=
  { method := "POST", path := DBots.BASE_URL ++ "/bots/" ++ bot_id ++ "/stats",
    headers := [("Authorization", token)],
    payload := [("guildCount", JVal.jint server_count)] }

def DiscordBoats.BASE_URL : String := "https://discord.boats/api/v2"

/-- DiscordBoats._post (service.py lines 479-491). -/
def DiscordBoats.post (bot_id token : String) (server_count : Int)
    (_user_count _voice_connections : Option Int)
    (_shard_count _shard_id : Option Int) : Request :=
  { method := "POST", path := DiscordBoats.BASE_URL ++ "/bot/" ++ bot_id,
    headers := [("Authorization", token)],
    payload := [("server_count", JVal.jint server_count)] }

def DiscordBotList.BASE_URL : String := "https://discordbotlist.com/api/v1"

/-- DiscordBotList._post (service.py lines 567-588): adds shard_id under
the shard guard, and users / voice_connections under their own
truthiness guards; Authorization header is "Bot token". -/
def DiscordBotList.post (bot_id token : String) (server_count : Int)
    (user_count voice_connections : Option Int)
    (shard_count shard_id : Option Int) : Request :=
  let payload := [("guilds", JVal.jint server_count)]
  let payload := if intTruthy shard_id && intTruthy shard_count then
      payload ++ [("shard_id", JVal.jint (intVal shard_id))] else payload
  let payload := if intTruthy user_count then
      payload ++ [("users", JVal.jint (intVal user_count))] else payload
  let payload := if intTruthy voice_connections then
      payload ++ [("voice_connections", JVal.jint (intVal voice_connections))] else payload
  { method := "POST", path := DiscordBotList.BASE_URL ++ "/bots/" ++ bot_id ++ "/stats",
    headers := [("Authorization", "Bot " ++ token)], payload := payload }

def DiscordBotlistEU.BASE_URL : String := "https://api.discord-botlist.eu/v1"

/-- DiscordBotlistEU._post (service.py lines 604-616). -/
def DiscordBotlistEU.post (_bot_id token : String) (server_count : Int)
    (_user_count _voice_connections : Option Int)
    (_shard_count _shard_id : Option Int) : Request :=
  { method := "POST", path := DiscordBotlistEU.BASE_URL ++ "/update",
    headers := [("Authorization", "Bearer " ++ token)],
    payload := [("serverCount", JVal.jint server_count)] }

def DiscordBotsGG.BASE_URL : String := "https://discord.bots.gg/api/v1"

/-- DiscordBotsGG._post (service.py lines 661-678). -/
def DiscordBotsGG.post (bot_id token : String) (server_count : Int)
    (_user_count _voice_connections : Option Int)
    (shard_count shard_id : Option Int) : Request :=
  let payload := [("guildCount", JVal.jint server_count)]
  let payload := if intTruthy shard_id && intTruthy shard_count then
      payload ++ [("shardId", JVal.jint (intVal shard_id)),
                  ("shardCount", JVal.jint (intVal shard_count))] else payload
  { method := "POST", path := DiscordBotsGG.BASE_URL ++ "/bots/" ++ bot_id ++ "/stats",
    headers := [("Authorization", token)], payload := payload }

def DiscordExtremeList.BASE_URL : String := "https://api.discordextremelist.xyz/v2"

/-- DiscordExtremeList._post (service.py lines 731-747). -/
def DiscordExtremeList.post (bot_id token : String) (server_count : Int)
    (_user_count _voice_connections : Option Int)
    (shard_count shard_id : Option Int) : Request :=
  let payload := [("guildCount", JVal.jint server_count)]
  let payload := if intTruthy shard_id && intTruthy shard_count then
      payload ++ [("shardCount", JVal.jint (intVal shard_count))] else payload
  { method := "POST", path := DiscordExtremeList.BASE_URL ++ "/bot/" ++ bot_id ++ "/stats",
    headers := [("Authorization", token)], payload := payload }

def DiscordLabs.BASE_URL : String := "https://bots.discordlabs.org/v2"

/-- DiscordLabs._post (service.py lines 801-816): no headers argument;
payload carries the token. -/
def DiscordLabs.post (bot_id token : String) (server_count : Int)
    (_user_count _voice_connections : Option Int)
    (shard_count shard_id : Option Int) : Request :=
  let payload := [("server_count", JVal.jint server_count), ("token", JVal.jstr token)]
  let payload := if intTruthy shard_id && intTruthy shard_count then
      payload ++ [("shard_count", JVal.jint (intVal shard_count))] else payload
  { method := "POST", path := DiscordLabs.BASE_URL ++ "/bot/" ++ bot_id ++ "/stats",
    headers := [], payload := payload }

def DiscordListSpace.BASE_URL : String := "https://api.discordlist.space/v2"

/-- DiscordListSpace._post (service.py lines 861-873). -/
def DiscordListSpace.post (bot_id token : String) (server_count : Int)
    (_user_count _voice_connections : Option Int)
    (_shard_count _shard_id : Option Int) : Request :=
  { method := "POST", path := DiscordListSpace.BASE_URL ++ "/bots/" ++ bot_id,
    headers := [("Authorization", token), ("Content-Type", "application/json")],
    payload := [("server_count", JVal.jint server_count)] }

def DiscordListology.BASE_URL : String := "https://discordlistology.com/api/v1"

/-- DiscordListology._post (service.py lines 1125-1141). -/
def DiscordListology.post (bot_id token : String) (server_count : Int)
    (_user_count _voice_connections : Option Int)
    (shard_count shard_id : Option Int) : Request :=
  let payload := [("servers", JVal.jint server_count)]
  let payload := if intTruthy shard_id && intTruthy shard_count then
      payload ++ [("shards", JVal.jint (intVal shard_count))] else payload
  { method := "POST", path := DiscordListology.BASE_URL ++ "/bots/" ++ bot_id ++ "/stats",
    headers := [("Authorization", token)], payload := payload }

def DiscordServices.BASE_URL : String := "https://api.discordservices.net"

/-- DiscordServices._post (service.py lines 1214-1230). -/
def DiscordServices.post (bot_id token : String) (server_count : Int)
    (_user_count _voice_connections : Option Int)
    (shard_count shard_id : Option Int) : Request :=
  let payload := [("servers", JVal.jint server_count)]
  let payload := if intTruthy shard_id && intTruthy shard_count then
      payload ++ [("shards", JVal.jint (intVal shard_count))] else payload
  { method := "POST", path := DiscordServices.BASE_URL ++ "/bot/" ++ bot_id ++ "/stats",
    headers := [("Authorization", token)], payload := payload }

def DiscordsCom.BASE_URL : String := "https://discords.com/bots/api"

/-- DiscordsCom._post (service.py lines 1291-1304). -/
def DiscordsCom.post (bot_id token : String) (server_count : Int)
    (_user_count _voice_connections : Option Int)
    (_shard_count _shard_id : Option Int) : Request :=
  { method := "POST", path := DiscordsCom.BASE_URL ++ "/bot/" ++ bot_id,
    headers := [("Authorization", token), ("Content-Type", "application/json")],
    payload := [("server_count", JVal.jint server_count)] }

def Disforge.BASE_URL : String := "https://disforge.com/api"

/-- Disforge._post (service.py lines 1408-1421). -/
def Disforge.post (bot_id token : String) (server_count : Int)
    (_user_count _voice_connections : Option Int)
    (_shard_count _shard_id : Option Int) : Request :=
  { method := "POST", path := Disforge.BASE_URL ++ "/botstats/" ++ bot_id,
    headers := [("Authorization", token)],
    payload := [("servers", JVal.jint server_count)] }

def FatesList.BASE_URL : String := "https://fateslist.xyz/api"

/-- FatesList._post (service.py lines 1452-1465). -/
def FatesList.post (bot_id token : String) (server_count : Int)
    (_user_count _voice_connections : Option Int)
    (_shard_count _shard_id : Option Int) : Request :=
  { method := "POST", path := FatesList.BASE_URL ++ "/botstats/" ++ bot_id,
    headers := [("Authorization", token)],
    payload := [("servers", JVal.jint server_count)] }

def InfinityBotList.BASE_URL : String := "https://api.infinitybotlist.com"

/-- InfinityBotList._post (service.py lines 1706-1722). -/
def InfinityBotList.post (bot_id token : String) (server_count : Int)
    (_user_count _voice_connections : Option Int)
    (shard_count shard_id : Option Int) : Request :=
  let payload := [("botid", JVal.jstr bot_id), ("servers", JVal.jint server_count)]
  let payload := if intTruthy shard_id && intTruthy shard_count then
      payload ++ [("shards", JVal.jint (intVal shard_count))] else payload
  { method := "POST", path := InfinityBotList.BASE_URL ++ "/bot/" ++ bot_id ++ "/stats",
    headers := [("Authorization", token)], payload := payload }

def Listcord.BASE_URL : String := "https://listcord.gg/api"

/-- Listcord._post (service.py lines 1767-1780). -/
def Listcord.post (bot_id token : String) (server_count : Int)
    (_user_count _voice_connections : Option Int)
    (_shard_count _shard_id : Option Int) : Request :=
  { method := "POST", path := Listcord.BASE_URL ++ "/bots/" ++ bot_id ++ "/stats",
    headers := [("Authorization", token)],
    payload := [("server_count", JVal.jint server_count)] }

def MotionBotlist.BASE_URL : String := "https://www.motiondevelopment.top/api/v1.2"

/-- MotionBotlist._post (service.py lines 1873-1886). -/
def MotionBotlist.post (bot_id token : String) (server_count : Int)
    (_user_count _voice_connections : Option Int)
    (_shard_count _shard_id : Option Int) : Request :=
  { method := "POST", path := MotionBotlist.BASE_URL ++ "/bots/" ++ bot_id ++ "/stats",
    headers := [("key", token), ("Content-Type", "application/json")],
    payload := [("server_count", JVal.jint server_count)] }

def SpaceBotsList.BASE_URL : String := "https://space-bot-list.xyz/api"

/-- SpaceBotsList._post (service.py lines 1935-1950): sends users
unconditionally (null when the count is absent). -/
def SpaceBotsList.post (bot_id token : String) (server_count : Int)
    (user_count _voice_connections : Option Int)
    (_shard_count _shard_id : Option Int) : Request :=
  { method := "POST", path := SpaceBotsList.BASE_URL ++ "/bot/" ++ bot_id,
    headers := [("Authorization", token)],
    payload := [("guilds", JVal.jint server_count),
                ("users", match user_count with
                  | some n => JVal.jint n
                  | none => JVal.jnull)] }

def TopCord.BASE_URL : String := "https://api.topcord.xyz"

/-- TopCord._post (service.py lines 1982-1998). -/
def TopCord.post (bot_id token : String) (server_count : Int)
    (_user_count _voice_connections : Option Int)
    (shard_count shard_id : Option Int) : Request :=
  let payload := [("guilds", JVal.jint server_count)]
  let payload := if intTruthy shard_id && intTruthy shard_count then
      payload ++ [("shards", JVal.jint (intVal shard_count))] else payload
  { method := "POST", path := TopCord.BASE_URL ++ "/bot/" ++ bot_id ++ "/stats",
    headers := [("Authorization", token)], payload := payload }

def TopGG.BASE_URL : String := "https://top.gg/api"

/-- TopGG._post (service.py lines 2036-2052): adds both shard_id and
shard_count under the shard guard. -/
def TopGG.post (bot_id token : String) (server_count : Int)
    (_user_count _voice_connections : Option Int)
    (shard_count shard_id : Option Int) : Request :=
  let payload := [("server_count", JVal.jint server_count)]
  let payload := if intTruthy shard_id && intTruthy shard_count then
      payload ++ [("shard_id", JVal.jint (intVal shard_id)),
                  ("shard_count", JVal.jint (intVal shard_count))] else payload
  { method := "POST", path := TopGG.BASE_URL ++ "/bots/" ++ bot_id ++ "/stats",
    headers := [("Authorization", token)], payload := payload }

def VoidBots.BASE_URL : String := "https://api.voidbots.net"

/-- VoidBots._post (service.py lines 2186-2202). -/
def VoidBots.post (bot_id token : String) (server_count : Int)
    (_user_count _voice_connections : Option Int)
    (shard_count shard_id : Option Int) : Request :=
  let payload := [("server_count", JVal.jint server_count)]
  let payload := if intTruthy shard_id && intTruthy shard_count then
      payload ++ [("shard_count", JVal.jint (intVal shard_count))] else payload
  { method := "POST", path := VoidBots.BASE_URL ++ "/bot/stats/" ++ bot_id,
    headers := [("Authorization", token)], payload := payload }

def WonderBotList.BASE_URL : String := "https://api.wonderbotlist.com/v1"

/-- WonderBotList._post (service.py lines 2285-2301). -/
def WonderBotList.post (bot_id token : String) (server_count : Int)
    (_user_count _voice_connections : Option Int)
    (shard_count shard_id : Option Int) : Request :=
  let payload := [("serveurs", JVal.jint server_count)]
  let payload := if intTruthy shard_id && intTruthy shard_count then
      payload ++ [("shard", JVal.jint (intVal shard_count))] else payload
  { method := "POST", path := WonderBotList.BASE_URL ++ "/bot/" ++ bot_id,
    headers := [("Authorization", token)], payload := payload }

def YABL.BASE_URL : String := "https://yabl.xyz/api"

/-- YABL._post (service.py lines 2350-2363). -/
def YABL.post (bot_id token : String) (server_count : Int)
    (_user_count _voice_connections : Option Int)
    (_shard_count _shard_id : Option Int) : Request :=
  { method := "POST", path := YABL.BASE_URL ++ "/bot/" ++ bot_id ++ "/stats",
    headers := [("Authorization", token)],
    payload := [("guildCount", JVal.jint server_count)] }

/-- Dispatch of `_service._post` on the resolved service class, with the
Python parameter order (bot_id, token, server_count, user_count,
voice_connections, shard_count, shard_id). -/
def servicePost : ServiceTag → String → String → Int →
    Option Int → Option Int → Option Int → Option Int → Request
  | .bladeList => BladeList.post
  | .blist => Blist.post
  | .botsOnDiscord => BotsOnDiscord.post
  | .carbon => Carbon.post
  | .dbots => DBots.post
  | .discordBoats => DiscordBoats.post
  | .discordBotList => DiscordBotList.post
  | .discordBotlistEU => DiscordBotlistEU.post
  | .discordBotsGG => DiscordBotsGG.post
  | .discordExtremeList => DiscordExtremeList.post
  | .discordLabs => DiscordLabs.post
  | .discordListSpace => DiscordListSpace.post
  | .discordListology => DiscordListology.post
  | .discordServices => DiscordServices.post
  | .discordsCom => DiscordsCom.post
  | .disforge => Disforge.post
  | .fatesList => FatesList.post
  | .infinityBotList => InfinityBotList.post
  | .listcord => Listcord.post
  | .motionBotlist => MotionBotlist.post
  | .spaceBotsList => SpaceBotsList.post
  | .topCord => TopCord.post
  | .topGG => TopGG.post
  | .voidBots => VoidBots.post
  | .wonderBotList => WonderBotList.post
  | .yabl => YABL.post

/-! ## Poster (src/dbots/poster.py) -/

/-- The Poster state relevant to posting: identity context, the ordered
API-key store (a Python dict: insertion-ordered, string keys to string
credentials), and whether an on_custom_post handler was registered at
construction (poster.py lines 90-91). -/
structure Poster where
  client_id : String
  shard_id : Option Int
  shard_count : Option Int
  api_keys : List (String × String)
  hasCustomPost : Bool
deriving DecidableEq, Repr

/-- Poster.__init__ (poster.py lines 67-92): when the sharding option is
falsy both shard values are forced to None, otherwise the supplied
values are kept. -/
def Poster.init (client_id : String) (hasCustom : Bool) (sharding : Bool)
    (shard_id shard_count : Option Int)
    (api_keys : List (String × String)) : Poster :=
  { client_id := client_id,
    shard_id := if sharding then shard_id else none,
    shard_count := if sharding then shard_count else none,
    api_keys := api_keys,
    hasCustomPost := hasCustom }

/-- Python dict lookup d[k] on the key store: first (only) binding wins. -/
def dictGet (d : List (String × String)) (k : String) : Option String :=
  (d.find? (fun kv => kv.1 == k)).map (fun kv => kv.2)

/-- list(d.keys()) of the key store, in insertion order. -/
def dictKeys (d : List (String × String)) : List String :=
  d.map (fun kv => kv.1)

/-- Poster.get_key (poster.py lines 135-144): `self.api_keys[service]`,
raising KeyError(service) when the key is absent. -/
def Poster.get_key (p : Poster) (service : String) : Except PyExc String :=
  match dictGet p.api_keys service with
  | some k => .ok k
  | none => .error (.keyError service)

/-- An event dispatched by manual_post: `post` with the response on
success, `post_fail` with the error on failure (poster.py 258, 265). -/
inductive Event where
  | post (r : HTTPResp)
  | postFail (e : PyExc)
deriving DecidableEq, Repr

/-- The value a successful manual_post returns: the custom handler's
result (determined by the metrics the handler was invoked with), a
wrapped HTTP response, or the empty fan-out dict (reachable only if the
key list were empty, which the empty-store check rules out). -/
inductive PostResult where
  | fromCustom (server_count : Int) (user_count voice_connections : Option Int)
  | fromHttp (r : HTTPResp)
  | emptyFanout
deriving DecidableEq, Repr

deriving instance DecidableEq for Except

/-- The observable outcome of one manual_post call: the returned value
or raised exception, the outbound requests issued, and the events
dispatched, in order. -/
structure MPOut where
  result : Except PyExc PostResult
  requests : List Request
  events : List Event
deriving DecidableEq, Repr

/-- Poster.manual_post (poster.py lines 210-266), parametrised by the
transport behaviour `ex` (what executing a built request returns).

Line-by-line correspondence:
- line 228: the custom branch fires when service == "custom" and an
  on_custom_post handler exists, before any key-store check;
- line 234: empty key store raises APIKeyException "No API Keys available";
- lines 236-247: the fan-out branch builds the key list, then the first
  loop iteration evaluates `responses.append` on the dict `responses`;
  a dict has no append attribute, so AttributeError is raised before the
  first recursive call (Python evaluates the callee of a call before its
  arguments), issuing no requests; with an empty key list the loop body
  never runs and the empty dict is returned (unreachable: the store is
  non-empty here, so the key list is non-empty);
- line 248: Service.get(service) (ServiceException propagates);
- line 249: self.get_key(service) (KeyError propagates);
- lines 250-251: a present but empty credential raises APIKeyException;
- lines 252-259: the request is built with the poster shard values passed
  positionally into the (shard_count, shard_id) parameter slots, then
  executed; on success a post event is dispatched and the response
  returned;
- lines 260-266: on failure the log call evaluates error.response.raw.url
  first, so an exception without a response attribute raises
  AttributeError out of the except block (no post_fail event); otherwise
  post_fail is dispatched and the error re-raised. -/
def Poster.manual_post (ex : Request → Except PyExc HTTPResp) (p : Poster)
    (server_count : Int) (service : Option String)
    (user_count voice_connections : Option Int) : MPOut :=
  if service = some "custom" ∧ p.hasCustomPost = true then
    { result := .ok (.fromCustom server_count user_count voice_connections),
      requests := [], events := [] }
  else if p.api_keys = [] then
    { result := .error (.apiKeyError "No API Keys available"),
      requests := [], events := [] }
  else
    match service with
    | none =>
      match dictKeys p.api_keys ++ (if p.hasCustomPost then ["custom"] else []) with
      | [] => { result := .ok .emptyFanout, requests := [], events := [] }
      | _ :: _ =>
        { result := .error (.attributeError "dict" "append"),
          requests := [], events := [] }
    | some svc =>
      if svc = "" then
        match dictKeys p.api_keys ++ (if p.hasCustomPost then ["custom"] else []) with
        | [] => { result := .ok .emptyFanout, requests := [], events := [] }
        | _ :: _ =>
          { result := .error (.attributeError "dict" "append"),
            requests := [], events := [] }
      else
        match Service.get svc with
        | .error e => { result := .error e, requests := [], events := [] }
        | .ok tag =>
          match p.get_key svc with
          | .error e => { result := .error e, requests := [], events := [] }
          | .ok key =>
            if key = "" then
              { result := .error (.apiKeyError ("Service " ++ svc ++ " has no API key")),
                requests := [], events := [] }
            else
              let req := servicePost tag p.client_id key server_count
                user_count voice_connections p.shard_id p.shard_count
              match ex req with
              | .ok r =>
                { result := .ok (.fromHttp r), requests := [req], events := [.post r] }
              | .error e =>
                if e.hasResponseAttr then
                  { result := .error e, requests := [req], events := [.postFail e] }
                else
                  { result := .error (.attributeError e.className "response"),
                    requests := [req], events := [] }

/-! ## Event dispatcher (src/dbots/eventhandler.py) -/

/-- self._listeners.get(event) on the listener registry (a dict from
event name to list of registered coroutines, insertion-ordered). -/
def listLookup {α : Type} (ls : List (String × List α)) (e : String) : Option (List α) :=
  (ls.find? (fun kv => kv.1 == e)).map (fun kv => kv.2)

/-- The listeners iterated for an event: `if listeners:` skips both a
missing entry and an empty list, and iterating an empty list schedules
nothing, so both collapse to the empty list. -/
def listenersOf {α : Type} (ls : List (String × List α)) (e : String) : List α :=
  match listLookup ls e with
  | some hs => hs
  | none => []

/-- EventHandler.dispatch (eventhandler.py lines 72-86): schedule one
wrapped task per registered listener for the event, in registration
order, then one for the reserved method on_<event> when getattr finds it
(the AttributeError of a missing attribute is swallowed).  `reservedFor`
models getattr on the owning object.  Each scheduled task is the pair of
the handler and the event name it was wrapped with.  Dispatch never runs
a handler body; it only schedules. -/
def dispatch {α : Type} (ls : List (String × List α))
    (reservedFor : String → Option α) (event : String) : List (α × String) :=
  (listenersOf ls event).map (fun h => (h, event)) ++
    (match reservedFor ("on_" ++ event) with
     | some m => [(m, event)]
     | none => [])

/-- The behaviour of one handler body when its scheduled task runs:
it returns, is cancelled, or raises an exception. -/
inductive HOutcome where
  | ok
  | cancelled
  | raises (e : PyExc)
deriving DecidableEq, Repr

/-- EventHandler._run_event (eventhandler.py lines 56-65): the wrapper
around a scheduled handler.  Cancellation passes silently; any other
exception is caught and a log line naming the event is emitted; in every
case the wrapper itself completes without raising.  The result is the
wrapper's own outcome paired with the log lines it emitted. -/
def run_event (event_name : String) (o : HOutcome) : Except PyExc Unit × List String :=
  match o with
  | .ok => (.ok (), [])
  | .cancelled => (.ok (), [])
  | .raises _ => (.ok (), ["A " ++ event_name ++ " event handler failed to run"])

/-! ## Recurring loop handle (src/dbots/poster.py lines 12-24, 161-180) -/

/-- The loop-handle state of one Poster: how many AsyncLoop objects were
ever created (used to give the next one a fresh id), which of them are
still active (not cancelled), and the current `self._loop` handle. -/
structure LoopState where
  counter : Nat
  active : List Nat
  handle : Option Nat
deriving DecidableEq, Repr

/-- The loop state of a freshly constructed Poster
(`self._loop = None`, poster.py line 73). -/
def LoopState.initial : LoopState := { counter := 0, active := [], handle := none }

/-- Poster.kill_loop (poster.py lines 175-180): if a handle is set,
cancel that loop and clear the handle; otherwise do nothing. -/
def kill_loop (s : LoopState) : LoopState :=
  match s.handle with
  | some i => { s with active := s.active.erase i, handle := none }
  | none => s

/-- Poster.start_loop (poster.py lines 161-173): first kill_loop, then
create a fresh AsyncLoop and store it as the handle. -/
def start_loop (s : LoopState) : LoopState :=
  let s1 := kill_loop s
  { counter := s1.counter + 1,
    active := s1.active ++ [s1.counter],
    handle := some s1.counter }

/-- Invariant of a Poster's loop state: every active loop has an id
below the creation counter, and the active loops are exactly the one the
handle points to (or none). -/
def LoopInv (s : LoopState) : Prop :=
  (∀ i ∈ s.active, i < s.counter) ∧
  (match s.handle with
   | some i => s.active = [] ∨ s.active = [i]
   | none => s.active = [])

/-! ## Shard-field bookkeeping for the bundled descriptors -/

/-- The 13 bundled services whose `_post` can put shard information into
the payload (each guarded by `if shard_id and shard_count:`); the other
13 never mention shards in their payload. -/
def shardCapable : ServiceTag → Bool
  | .bladeList | .blist | .discordBotList | .discordBotsGG
  | .discordExtremeList | .discordLabs | .discordListology
  | .discordServices | .infinityBotList | .topCord | .topGG
  | .voidBots | .wonderBotList => true
  | _ => false

/-- Every payload field name a bundled `_post` uses for shard data. -/
def shardFieldNames : List String :=
  ["shard_id", "shard_count", "shardId", "shardCount", "shards", "shard"]

/-- Whether a built request's payload contains any shard field. -/
def hasShardField (r : Request) : Bool :=
  (r.payload.map (fun kv => kv.1)).any (fun k => shardFieldNames.contains k)

/-! ## Concrete fixtures used by the closed theorems and witnesses -/

/-- A transport that refuses every request with a network-level error
(an exception with no response attribute). -/
def execNoNetwork : Request → Except PyExc HTTPResp :=
  fun _ => .error (.otherExc "ClientConnectionError")

/-- A transport whose requests all succeed with a fixed 200 response. -/
def execAlwaysOk : Request → Except PyExc HTTPResp :=
  fun _ => .ok { status := 200, body := "ok", url := "u" }

/-- A transport whose requests all fail with an HTTP 500 error carrying
the response (the HTTPException family). -/
def execHttp500 : Request → Except PyExc HTTPResp :=
  fun _ => .error (.httpError { status := 500, body := "err", url := "u" })

/-- Poster of the fan-out scenario: two stored keys, no custom handler. -/
def posterTwoKeys : Poster :=
  { client_id := "CID", shard_id := none, shard_count := none,
    api_keys := [("topgg", "T1"), ("dbots", "T2")], hasCustomPost := false }

/-- Poster with an empty key store and a registered custom handler. -/
def posterEmptyCustom : Poster :=
  { client_id := "CID", shard_id := none, shard_count := none,
    api_keys := [], hasCustomPost := true }

/-- Poster with an empty key store and no custom handler. -/
def posterEmpty : Poster :=
  { client_id := "CID", shard_id := none, shard_count := none,
    api_keys := [], hasCustomPost := false }

/-- Poster whose non-empty key store is unrelated to the target service. -/
def posterUnrelated : Poster :=
  { client_id := "CID", shard_id := none, shard_count := none,
    api_keys := [("dbots", "T2")], hasCustomPost := false }

/-- Poster with a custom handler and a conflicting "custom" entry in the
key store next to a regular service key. -/
def posterCustomConflict : Poster :=
  { client_id := "CID", shard_id := none, shard_count := none,
    api_keys := [("custom", "CONFLICT"), ("topgg", "T1")], hasCustomPost := true }

/-- Poster built with sharding enabled, shard_id=3, shard_count=8. -/
def posterSharded : Poster :=
  Poster.init "123" false true (some 3) (some 8) [("topgg", "TOK")]

/-- The same construction with sharding disabled. -/
def posterNoSharding : Poster :=
  Poster.init "123" false false (some 3) (some 8) [("topgg", "TOK")]

/-- Poster whose store maps the target service to an empty credential. -/
def posterEmptyCredential : Poster :=
  { client_id := "CID", shard_id := none, shard_count := none,
    api_keys := [("topgg", "")], hasCustomPost := false }

/-! ## Theorems -/

/-- Claim C1.  The claim states that manual_post with service unset on a
Poster with a non-empty key store performs one recursive per-service
post per stored key and returns a collection of results keyed by service
name.  The code instead evaluates `responses.append` on the dict
`responses` at the first loop iteration, which raises AttributeError
before any recursive call: on api_keys {topgg: T1, dbots: T2} with
server_count 42 the call issues zero outbound requests, dispatches no
events, and raises AttributeError, for every transport behaviour. -/
theorem manual_post_fanout_raises_attribute_error :
    ∀ ex : Request → Except PyExc HTTPResp,
    Poster.manual_post ex posterTwoKeys 42 none none none =
      { result := .error (.attributeError "dict" "append"),
        requests := [], events := [] } :=
  fun _ => rfl

/-- Claim C3 counterexample.  The claim states that with an empty key
store every manual_post call, for any service argument, fails with
NoAPIKeysError.  On a Poster with an empty store and a registered custom
handler, manual_post(service="custom") succeeds: the custom branch runs
before the empty-store check. -/
theorem manual_post_empty_store_custom_counterexample :
    Poster.manual_post execNoNetwork posterEmptyCustom 5 (some "custom") none none =
      { result := .ok (.fromCustom 5 none none), requests := [], events := [] } :=
  rfl

/-- Claim C3, amended.  With an empty key store, manual_post fails with
APIKeyException "No API Keys available" and performs no I/O, except when
the service argument is "custom" and a custom-post handler is
registered, in which case the handler is invoked with the supplied
metrics and its result returned, still with no I/O. -/
theorem manual_post_empty_store_no_io :
    ∀ (ex : Request → Except PyExc HTTPResp) (p : Poster) (sc : Int)
      (svc : Option String) (uc vc : Option Int),
    p.api_keys = [] →
    ((svc = some "custom" ∧ p.hasCustomPost = true) →
      Poster.manual_post ex p sc svc uc vc =
        { result := .ok (.fromCustom sc uc vc), requests := [], events := [] })
    ∧ (¬(svc = some "custom" ∧ p.hasCustomPost = true) →
      Poster.manual_post ex p sc svc uc vc =
        { result := .error (.apiKeyError "No API Keys available"),
          requests := [], events := [] }) := by
  intro ex p sc svc uc vc hk
  constructor
  · intro hc
    unfold Poster.manual_post
    rw [if_pos hc]
  · intro hc
    unfold Poster.manual_post
    rw [if_neg hc, if_pos hk]

/-- Witness for manual_post_empty_store_no_io at concrete inputs. -/
theorem manual_post_empty_store_no_io_witness :
    Poster.manual_post execNoNetwork posterEmptyCustom 5 (some "custom") none none =
      { result := .ok (.fromCustom 5 none none), requests := [], events := [] }
    ∧ Poster.manual_post execNoNetwork posterEmpty 5 (some "topgg") none none =
      { result := .error (.apiKeyError "No API Keys available"),
        requests := [], events := [] } :=
  ⟨(manual_post_empty_store_no_io execNoNetwork posterEmptyCustom 5
      (some "custom") none none rfl).1 ⟨rfl, rfl⟩,
   (manual_post_empty_store_no_io execNoNetwork posterEmpty 5
      (some "topgg") none none rfl).2 (by simp [posterEmpty])⟩

/-- Claim C4.  The claim states that any exception from the request
execution of a targeted post is dispatched via post_fail and propagates.
The except block first evaluates error.response.raw.url for its log
call, so an exception without a response attribute (e.g. a network-level
ClientConnectionError) raises AttributeError instead: no post_fail event
is dispatched and AttributeError, not the original exception,
propagates.  For contrast, an HTTPException-family error (which carries
the response) is dispatched via post_fail and re-raised as claimed. -/
theorem manual_post_nonhttp_error_breaks_post_fail :
    Poster.manual_post execNoNetwork posterTwoKeys 42 (some "topgg") none none =
      { result := .error (.attributeError "ClientConnectionError" "response"),
        requests := [TopGG.post "CID" "T1" 42 none none none none],
        events := [] }
    ∧ Poster.manual_post execHttp500 posterTwoKeys 42 (some "topgg") none none =
      { result := .error (.httpError { status := 500, body := "err", url := "u" }),
        requests := [TopGG.post "CID" "T1" 42 none none none none],
        events := [.postFail (.httpError { status := 500, body := "err", url := "u" })] } :=
  ⟨by decide, by decide⟩

/-- Claim C5.  manual_post(service="custom") on a Poster constructed
with a custom-post handler invokes the handler directly with the
supplied metrics and returns its result, touching neither the service
registry nor the API-key store: no request is issued and no event
dispatched, for every transport behaviour and every key store. -/
theorem manual_post_custom_bypasses_registry :
    ∀ (ex : Request → Except PyExc HTTPResp) (p : Poster) (sc : Int)
      (uc vc : Option Int),
    p.hasCustomPost = true →
    Poster.manual_post ex p sc (some "custom") uc vc =
      { result := .ok (.fromCustom sc uc vc), requests := [], events := [] } := by
  intro ex p sc uc vc h
  unfold Poster.manual_post
  rw [if_pos ⟨rfl, h⟩]

/-- Witness for manual_post_custom_bypasses_registry: the handler fires
even when the key store holds a conflicting "custom" entry next to a
regular service key. -/
theorem manual_post_custom_bypasses_registry_witness :
    Poster.manual_post execNoNetwork posterCustomConflict 7 (some "custom")
        (some 1) (some 2) =
      { result := .ok (.fromCustom 7 (some 1) (some 2)),
        requests := [], events := [] } :=
  manual_post_custom_bypasses_registry execNoNetwork posterCustomConflict 7
    (some 1) (some 2) rfl

/-- Claim C9.  The claim states that a Poster with sharding enabled,
shard_id=3 and shard_count=8 posting to Top.gg yields a payload with
shard_id: 3 and shard_count: 8.  manual_post passes self.shard_id and
self.shard_count positionally into the (shard_count, shard_id) parameter
slots of `_post`, so the payload actually carries shard_id: 8 and
shard_count: 3 — the two values swapped.  With sharding disabled the
payload carries neither field, as claimed. -/
theorem topgg_shard_payload_swapped :
    (Poster.manual_post execAlwaysOk posterSharded 42 (some "topgg") none none).requests =
      [{ method := "POST", path := "https://top.gg/api/bots/123/stats",
         headers := [("Authorization", "TOK")],
         payload := [("server_count", .jint 42), ("shard_id", .jint 8),
                     ("shard_count", .jint 3)] }]
    ∧ (Poster.manual_post execAlwaysOk posterNoSharding 42 (some "topgg") none none).requests =
      [{ method := "POST", path := "https://top.gg/api/bots/123/stats",
         headers := [("Authorization", "TOK")],
         payload := [("server_count", .jint 42)] }] :=
  ⟨by decide, by decide⟩

/-- Claim C6 counterexample.  The claim states that a targeted
manual_post on a non-empty store whose key misses the service fails with
a NoAPIKeysError variant, and that get_key on an unconfigured service
fails distinguishably between a non-empty and an empty store.  The code
raises KeyError("topgg") (a raw mapping lookup failure, not an
APIKeyException), and get_key raises the identical
KeyError("unconfigured") on both stores. -/
theorem missing_key_failure_counterexample :
    (Poster.manual_post execNoNetwork posterUnrelated 1 (some "topgg") none none).result =
      .error (.keyError "topgg")
    ∧ posterUnrelated.get_key "unconfigured" = .error (.keyError "unconfigured")
    ∧ posterEmpty.get_key "unconfigured" = .error (.keyError "unconfigured") :=
  ⟨by decide, rfl, rfl⟩

/-- Service.get "custom" fails: no bundled service claims that alias. -/
theorem service_get_custom_invalid :
    Service.get "custom" = .error (.serviceError "Invalid service") := by
  decide

/-- Service.get "" fails: no bundled service claims the empty alias. -/
theorem service_get_empty_invalid :
    Service.get "" = .error (.serviceError "Invalid service") := by
  decide

/-- Claim C6, amended.  On a non-empty store, a targeted manual_post to
a resolvable service whose key is absent raises KeyError(service) from
the store lookup (distinguishable from the empty-store APIKeyException
but not itself an APIKeyException); get_key on an unconfigured service
raises KeyError(service) regardless of what else the store holds (the
same failure for an empty and for a non-empty unrelated store); the
APIKeyException variant "Service X has no API key" is raised only when
the store maps the service to an empty credential. -/
theorem missing_key_failure_modes :
    (∀ (ex : Request → Except PyExc HTTPResp) (p : Poster) (sc : Int)
       (svc : String) (uc vc : Option Int) (tag : ServiceTag),
      p.api_keys ≠ [] → dictGet p.api_keys svc = none → Service.get svc = .ok tag →
      Poster.manual_post ex p sc (some svc) uc vc =
        { result := .error (.keyError svc), requests := [], events := [] })
    ∧ (∀ (p : Poster) (svc : String), dictGet p.api_keys svc = none →
      p.get_key svc = .error (.keyError svc))
    ∧ (∀ (ex : Request → Except PyExc HTTPResp) (p : Poster) (sc : Int)
       (svc : String) (uc vc : Option Int) (tag : ServiceTag),
      p.api_keys ≠ [] → dictGet p.api_keys svc = some "" → Service.get svc = .ok tag →
      Poster.manual_post ex p sc (some svc) uc vc =
        { result := .error (.apiKeyError ("Service " ++ svc ++ " has no API key")),
          requests := [], events := [] }) := by
  have hcustom : ∀ (svc : String) (tag : ServiceTag), Service.get svc = .ok tag →
      svc ≠ "custom" := by
    intro svc tag hget h
    rw [h, service_get_custom_invalid] at hget
    exact Except.noConfusion hget
  have hempty : ∀ (svc : String) (tag : ServiceTag), Service.get svc = .ok tag →
      svc ≠ "" := by
    intro svc tag hget h
    rw [h, service_get_empty_invalid] at hget
    exact Except.noConfusion hget
  refine ⟨?_, ?_, ?_⟩
  · intro ex p sc svc uc vc tag hne hdg hget
    have hkey : p.get_key svc = .error (.keyError svc) := by
      unfold Poster.get_key
      rw [hdg]
    unfold Poster.manual_post
    rw [if_neg (fun hc => hcustom svc tag hget (Option.some.inj hc.1)),
        if_neg hne]
    dsimp only
    rw [if_neg (hempty svc tag hget), hget, hkey]
  · intro p svc hdg
    unfold Poster.get_key
    rw [hdg]
  · intro ex p sc svc uc vc tag hne hdg hget
    have hkey : p.get_key svc = .ok "" := by
      unfold Poster.get_key
      rw [hdg]
    unfold Poster.manual_post
    rw [if_neg (fun hc => hcustom svc tag hget (Option.some.inj hc.1)),
        if_neg hne]
    dsimp only
    rw [if_neg (hempty svc tag hget), hget, hkey]
    rfl

/-- Witness for missing_key_failure_modes at concrete inputs. -/
theorem missing_key_failure_modes_witness :
    Poster.manual_post execNoNetwork posterUnrelated 1 (some "topgg") none none =
      { result := .error (.keyError "topgg"), requests := [], events := [] }
    ∧ posterUnrelated.get_key "unconfigured" = .error (.keyError "unconfigured")
    ∧ Poster.manual_post execNoNetwork posterEmptyCredential 1 (some "topgg") none none =
      { result := .error (.apiKeyError "Service topgg has no API key"),
        requests := [], events := [] } :=
  ⟨missing_key_failure_modes.1 execNoNetwork posterUnrelated 1 "topgg" none none
      .topGG (by decide) (by decide) (by decide),
   missing_key_failure_modes.2.1 posterUnrelated "unconfigured" (by decide),
   missing_key_failure_modes.2.2 execNoNetwork posterEmptyCredential 1 "topgg"
      none none .topGG (by decide) (by decide) (by decide)⟩

/-- Claim C8 counterexample.  The claim states that service resolution
is case-insensitive AND trimmed.  The key " topgg " (whose trimmed form
"topgg" is a registered Top.gg alias) fails with ServiceException
"Invalid service": the lookup lowercases but does not trim. -/
theorem service_get_not_trimmed_counterexample :
    Service.get " topgg " = .error (.serviceError "Invalid service")
    ∧ Service.get "topgg" = .ok .topGG :=
  ⟨by decide, by decide⟩

/-- For every service in registry order and every one of its aliases,
a linear scan of SERVICES finds exactly that service first. -/
theorem alias_find_first :
    ∀ s ∈ SERVICES, ∀ a ∈ s.aliases,
      SERVICES.find? (fun t => t.aliases.contains a) = some s := by
  decide

/-- Claim C8, amended.  Service resolution lowercases the key but does
not trim it: every string whose lowercased form is a registered alias of
a service resolves to that service (so resolution is case-insensitive
and all aliases of one service are an equivalence class resolving to the
identical descriptor), and every key whose lowercased form no descriptor
claims fails with ServiceException "Invalid service". -/
theorem service_get_resolution :
    (∀ s ∈ SERVICES, ∀ a ∈ s.aliases, ∀ v : String,
      lowerStr v = a → Service.get v = .ok s)
    ∧ (∀ k : String, (∀ s ∈ SERVICES, s.aliases.contains (lowerStr k) = false) →
      Service.get k = .error (.serviceError "Invalid service")) := by
  constructor
  · intro s hs a ha v hv
    unfold Service.get
    rw [hv, alias_find_first s hs a ha]
  · intro k hk
    unfold Service.get
    have hnone : SERVICES.find? (fun t => t.aliases.contains (lowerStr k)) = none := by
      rw [List.find?_eq_none]
      intro x hx
      simp only [hk x hx]
      decide
    rw [hnone]

/-- Witness for service_get_resolution at concrete inputs. -/
theorem service_get_resolution_witness :
    Service.get "Top.GG" = .ok .topGG
    ∧ Service.get "zzz" = .error (.serviceError "Invalid service") :=
  ⟨service_get_resolution.1 .topGG (by decide) "top.gg" (by decide) "Top.GG" (by decide),
   service_get_resolution.2 "zzz" (by decide)⟩

/-- Claim C2.  Dispatch never runs a handler body itself, so nothing a
handler raises can escape it: (1) with zero registered listeners for
the event and no reserved on_<event> method, dispatch schedules nothing
and returns (the missing-attribute AttributeError is swallowed); (2) for
every assignment of behaviours to handlers, the wrapped execution of
every scheduled task completes without raising, logging failures; (3)
every registered listener for the event is scheduled, independently of
what any handler does when it later runs — a raising handler cannot
prevent a sibling from being scheduled and run. -/
theorem dispatch_isolates_handler_failures :
    ∀ (α : Type) (ls : List (String × List α)) (rf : String → Option α) (e : String),
    (listenersOf ls e = [] → rf ("on_" ++ e) = none → dispatch ls rf e = [])
    ∧ (∀ (beh : α → HOutcome) (t : α × String), t ∈ dispatch ls rf e →
        (run_event t.2 (beh t.1)).1 = Except.ok ())
    ∧ (∀ h : α, h ∈ listenersOf ls e → (h, e) ∈ dispatch ls rf e)
    ∧ (∀ exc : PyExc, run_event e (.raises exc) =
        (Except.ok (), ["A " ++ e ++ " event handler failed to run"])) := by
  intro α ls rf e
  refine ⟨?_, ?_, ?_, ?_⟩
  · intro h1 h2
    simp [dispatch, h1, h2]
  · intro beh t ht
    cases beh t.1 <;> rfl
  · intro h hh
    exact List.mem_append_left _ (List.mem_map_of_mem _ hh)
  · intro exc
    rfl

/-- Witness for dispatch_isolates_handler_failures at concrete inputs:
an unknown event is a no-op, a raising handler's wrapped run returns
normally, and the second of two listeners is scheduled. -/
theorem dispatch_isolates_handler_failures_witness :
    dispatch (α := Nat) [] (fun _ => none) "post" = []
    ∧ (run_event "post" (HOutcome.raises (.otherExc "boom"))).1 = Except.ok ()
    ∧ (2, "post") ∈ dispatch [("post", [1, 2])] (fun _ => (none : Option Nat)) "post"
    ∧ run_event "post" (.raises (.otherExc "boom")) =
        (Except.ok (), ["A post event handler failed to run"]) :=
  ⟨(dispatch_isolates_handler_failures Nat [] (fun _ => none) "post").1 rfl rfl,
   (dispatch_isolates_handler_failures Nat [("post", [1, 2])] (fun _ => none) "post").2.1
      (fun _ => HOutcome.raises (.otherExc "boom")) (1, "post") (by decide),
   (dispatch_isolates_handler_failures Nat [("post", [1, 2])] (fun _ => none) "post").2.2.1
      2 (by decide),
   (dispatch_isolates_handler_failures Nat [("post", [1, 2])] (fun _ => none) "post").2.2.2
      (.otherExc "boom")⟩

/-- Under the loop invariant, kill_loop cancels whatever loop is active
and clears the handle, leaving no active loop. -/
theorem kill_loop_clears :
    ∀ s : LoopState, LoopInv s →
    kill_loop s = { counter := s.counter, active := [], handle := none } := by
  intro s hs
  obtain ⟨c, act, hd⟩ := s
  obtain ⟨hbound, hshape⟩ := hs
  cases hd with
  | none =>
    dsimp only at hshape
    subst hshape
    rfl
  | some i =>
    dsimp only at hshape
    rcases hshape with h | h <;> subst h
    · rfl
    · simp [kill_loop, List.erase_cons_head]

/-- Under the loop invariant, start_loop leaves exactly one active loop
(the freshly created one) and preserves the invariant. -/
theorem start_loop_fresh :
    ∀ s : LoopState, LoopInv s →
    (start_loop s).active.length = 1 ∧ LoopInv (start_loop s) := by
  intro s hs
  have hk := kill_loop_clears s hs
  have hstart : start_loop s =
      { counter := s.counter + 1, active := [s.counter], handle := some s.counter } := by
    unfold start_loop
    rw [hk]
    rfl
  rw [hstart]
  refine ⟨rfl, ?_, ?_⟩
  · intro i hi
    rw [List.mem_singleton] at hi
    subst hi
    exact Nat.lt_succ_self _
  · exact Or.inr rfl

/-- Claim C7.  For every loop state satisfying the handle invariant:
kill_loop cancels the active loop (if any) and clears the handle,
leaving no active loop, and is idempotent; start_loop leaves exactly one
active loop, and a second start_loop immediately after still leaves
exactly one active loop (the first one was cancelled before the new one
was created); both operations preserve the invariant. -/
theorem loop_handle_discipline :
    ∀ s : LoopState, LoopInv s →
    (kill_loop s).handle = none
    ∧ (kill_loop s).active = []
    ∧ kill_loop (kill_loop s) = kill_loop s
    ∧ (start_loop s).active.length = 1
    ∧ (start_loop (start_loop s)).active.length = 1
    ∧ LoopInv (kill_loop s)
    ∧ LoopInv (start_loop s) := by
  intro s hs
  have hk := kill_loop_clears s hs
  have h1 := start_loop_fresh s hs
  have h2 := start_loop_fresh (start_loop s) h1.2
  refine ⟨by rw [hk], by rw [hk], by rw [hk]; rfl, h1.1, h2.1, ?_, h1.2⟩
  rw [hk]
  exact ⟨fun i hi => absurd hi (List.not_mem_nil i), rfl⟩

/-- Witness for loop_handle_discipline at the initial loop state of a
freshly constructed Poster. -/
theorem loop_handle_discipline_witness :
    (kill_loop LoopState.initial).handle = none
    ∧ (kill_loop LoopState.initial).active = []
    ∧ kill_loop (kill_loop LoopState.initial) = kill_loop LoopState.initial
    ∧ (start_loop LoopState.initial).active.length = 1
    ∧ (start_loop (start_loop LoopState.initial)).active.length = 1
    ∧ LoopInv (kill_loop LoopState.initial)
    ∧ LoopInv (start_loop LoopState.initial) :=
  loop_handle_discipline LoopState.initial
    ⟨fun i hi => absurd hi (List.not_mem_nil i), rfl⟩

/-- BladeList puts a shard field in the payload exactly when both shard
parameters are truthy. -/
theorem hasShardField_bladeList :
    ∀ (b t : String) (sc : Int) (uc vc scnt sid : Option Int),
    hasShardField (BladeList.post b t sc uc vc scnt sid) =
      (intTruthy sid && intTruthy scnt) := by
  intro b t sc uc vc scnt sid
  simp only [BladeList.post]
  cases h : intTruthy sid && intTruthy scnt <;>
    simp [hasShardField, shardFieldNames]

/-- Blist puts a shard field in the payload exactly when both shard
parameters are truthy. -/
theorem hasShardField_blist :
    ∀ (b t : String) (sc : Int) (uc vc scnt sid : Option Int),
    hasShardField (Blist.post b t sc uc vc scnt sid) =
      (intTruthy sid && intTruthy scnt) := by
  intro b t sc uc vc scnt sid
  simp only [Blist.post]
  cases h : intTruthy sid && intTruthy scnt <;>
    simp [hasShardField, shardFieldNames]

/-- BotsOnDiscord never puts shard fields in the payload. -/
theorem hasShardField_botsOnDiscord :
    ∀ (b t : String) (sc : Int) (uc vc scnt sid : Option Int),
    hasShardField (BotsOnDiscord.post b t sc uc vc scnt sid) = false := by
  intro b t sc uc vc scnt sid
  simp [hasShardField, BotsOnDiscord.post, shardFieldNames]

/-- Carbon never puts shard fields in the payload. -/
theorem hasShardField_carbon :
    ∀ (b t : String) (sc : Int) (uc vc scnt sid : Option Int),
    hasShardField (Carbon.post b t sc uc vc scnt sid) = false := by
  intro b t sc uc vc scnt sid
  simp [hasShardField, Carbon.post, shardFieldNames]

/-- DBots never puts shard fields in the payload. -/
theorem hasShardField_dbots :
    ∀ (b t : String) (sc : Int) (uc vc scnt sid : Option Int),
    hasShardField (DBots.post b t sc uc vc scnt sid) = false := by
  intro b t sc uc vc scnt sid
  simp [hasShardField, DBots.post, shardFieldNames]

/-- DiscordBoats never puts shard fields in the payload. -/
theorem hasShardField_discordBoats :
    ∀ (b t : String) (sc : Int) (uc vc scnt sid : Option Int),
    hasShardField (DiscordBoats.post b t sc uc vc scnt sid) = false := by
  intro b t sc uc vc scnt sid
  simp [hasShardField, DiscordBoats.post, shardFieldNames]

/-- DiscordBotList puts a shard field in the payload exactly when both
shard parameters are truthy (the users and voice_connections fields are
not shard fields). -/
theorem hasShardField_discordBotList :
    ∀ (b t : String) (sc : Int) (uc vc scnt sid : Option Int),
    hasShardField (DiscordBotList.post b t sc uc vc scnt sid) =
      (intTruthy sid && intTruthy scnt) := by
  intro b t sc uc vc scnt sid
  simp only [DiscordBotList.post]
  cases h : intTruthy sid && intTruthy scnt <;>
    cases h2 : intTruthy uc <;> cases h3 : intTruthy vc <;>
      simp [hasShardField, shardFieldNames]

/-- DiscordBotlistEU never puts shard fields in the payload. -/
theorem hasShardField_discordBotlistEU :
    ∀ (b t : String) (sc : Int) (uc vc scnt sid : Option Int),
    hasShardField (DiscordBotlistEU.post b t sc uc vc scnt sid) = false := by
  intro b t sc uc vc scnt sid
  simp [hasShardField, DiscordBotlistEU.post, shardFieldNames]

/-- DiscordBotsGG puts shard fields in the payload exactly when both
shard parameters are truthy. -/
theorem hasShardField_discordBotsGG :
    ∀ (b t : String) (sc : Int) (uc vc scnt sid : Option Int),
    hasShardField (DiscordBotsGG.post b t sc uc vc scnt sid) =
      (intTruthy sid && intTruthy scnt) := by
  intro b t sc uc vc scnt sid
  simp only [DiscordBotsGG.post]
  cases h : intTruthy sid && intTruthy scnt <;>
    simp [hasShardField, shardFieldNames]

/-- DiscordExtremeList puts a shard field in the payload exactly when
both shard parameters are truthy. -/
theorem hasShardField_discordExtremeList :
    ∀ (b t : String) (sc : Int) (uc vc scnt sid : Option Int),
    hasShardField (DiscordExtremeList.post b t sc uc vc scnt sid) =
      (intTruthy sid && intTruthy scnt) := by
  intro b t sc uc vc scnt sid
  simp only [DiscordExtremeList.post]
  cases h : intTruthy sid && intTruthy scnt <;>
    simp [hasShardField, shardFieldNames]

/-- DiscordLabs puts a shard field in the payload exactly when both
shard parameters are truthy. -/
theorem hasShardField_discordLabs :
    ∀ (b t : String) (sc : Int) (uc vc scnt sid : Option Int),
    hasShardField (DiscordLabs.post b t sc uc vc scnt sid) =
      (intTruthy sid && intTruthy scnt) := by
  intro b t sc uc vc scnt sid
  simp only [DiscordLabs.post]
  cases h : intTruthy sid && intTruthy scnt <;>
    simp [hasShardField, shardFieldNames]

/-- DiscordListSpace never puts shard fields in the payload. -/
theorem hasShardField_discordListSpace :
    ∀ (b t : String) (sc : Int) (uc vc scnt sid : Option Int),
    hasShardField (DiscordListSpace.post b t sc uc vc scnt sid) = false := by
  intro b t sc uc vc scnt sid
  simp [hasShardField, DiscordListSpace.post, shardFieldNames]

/-- DiscordListology puts a shard field in the payload exactly when both
shard parameters are truthy. -/
theorem hasShardField_discordListology :
    ∀ (b t : String) (sc : Int) (uc vc scnt sid : Option Int),
    hasShardField (DiscordListology.post b t sc uc vc scnt sid) =
      (intTruthy sid && intTruthy scnt) := by
  intro b t sc uc vc scnt sid
  simp only [DiscordListology.post]
  cases h : intTruthy sid && intTruthy scnt <;>
    simp [hasShardField, shardFieldNames]

/-- DiscordServices puts a shard field in the payload exactly when both
shard parameters are truthy. -/
theorem hasShardField_discordServices :
    ∀ (b t : String) (sc : Int) (uc vc scnt sid : Option Int),
    hasShardField (DiscordServices.post b t sc uc vc scnt sid) =
      (intTruthy sid && intTruthy scnt) := by
  intro b t sc uc vc scnt sid
  simp only [DiscordServices.post]
  cases h : intTruthy sid && intTruthy scnt <;>
    simp [hasShardField, shardFieldNames]

/-- DiscordsCom never puts shard fields in the payload. -/
theorem hasShardField_discordsCom :
    ∀ (b t : String) (sc : Int) (uc vc scnt sid : Option Int),
    hasShardField (DiscordsCom.post b t sc uc vc scnt sid) = false := by
  intro b t sc uc vc scnt sid
  simp [hasShardField, DiscordsCom.post, shardFieldNames]

/-- Disforge never puts shard fields in the payload. -/
theorem hasShardField_disforge :
    ∀ (b t : String) (sc : Int) (uc vc scnt sid : Option Int),
    hasShardField (Disforge.post b t sc uc vc scnt sid) = false := by
  intro b t sc uc vc scnt sid
  simp [hasShardField, Disforge.post, shardFieldNames]

/-- FatesList never puts shard fields in the payload. -/
theorem hasShardField_fatesList :
    ∀ (b t : String) (sc : Int) (uc vc scnt sid : Option Int),
    hasShardField (FatesList.post b t sc uc vc scnt sid) = false := by
  intro b t sc uc vc scnt sid
  simp [hasShardField, FatesList.post, shardFieldNames]

/-- InfinityBotList puts a shard field in the payload exactly when both
shard parameters are truthy. -/
theorem hasShardField_infinityBotList :
    ∀ (b t : String) (sc : Int) (uc vc scnt sid : Option Int),
    hasShardField (InfinityBotList.post b t sc uc vc scnt sid) =
      (intTruthy sid && intTruthy scnt) := by
  intro b t sc uc vc scnt sid
  simp only [InfinityBotList.post]
  cases h : intTruthy sid && intTruthy scnt <;>
    simp [hasShardField, shardFieldNames]

/-- Listcord never puts shard fields in the payload. -/
theorem hasShardField_listcord :
    ∀ (b t : String) (sc : Int) (uc vc scnt sid : Option Int),
    hasShardField (Listcord.post b t sc uc vc scnt sid) = false := by
  intro b t sc uc vc scnt sid
  simp [hasShardField, Listcord.post, shardFieldNames]

/-- MotionBotlist never puts shard fields in the payload. -/
theorem hasShardField_motionBotlist :
    ∀ (b t : String) (sc : Int) (uc vc scnt sid : Option Int),
    hasShardField (MotionBotlist.post b t sc uc vc scnt sid) = false := by
  intro b t sc uc vc scnt sid
  simp [hasShardField, MotionBotlist.post, shardFieldNames]

/-- SpaceBotsList never puts shard fields in the payload. -/
theorem hasShardField_spaceBotsList :
    ∀ (b t : String) (sc : Int) (uc vc scnt sid : Option Int),
    hasShardField (SpaceBotsList.post b t sc uc vc scnt sid) = false := by
  intro b t sc uc vc scnt sid
  simp [hasShardField, SpaceBotsList.post, shardFieldNames]

/-- TopCord puts a shard field in the payload exactly when both shard
parameters are truthy. -/
theorem hasShardField_topCord :
    ∀ (b t : String) (sc : Int) (uc vc scnt sid : Option Int),
    hasShardField (TopCord.post b t sc uc vc scnt sid) =
      (intTruthy sid && intTruthy scnt) := by
  intro b t sc uc vc scnt sid
  simp only [TopCord.post]
  cases h : intTruthy sid && intTruthy scnt <;>
    simp [hasShardField, shardFieldNames]

/-- TopGG puts shard fields in the payload exactly when both shard
parameters are truthy. -/
theorem hasShardField_topGG :
    ∀ (b t : String) (sc : Int) (uc vc scnt sid : Option Int),
    hasShardField (TopGG.post b t sc uc vc scnt sid) =
      (intTruthy sid && intTruthy scnt) := by
  intro b t sc uc vc scnt sid
  simp only [TopGG.post]
  cases h : intTruthy sid && intTruthy scnt <;>
    simp [hasShardField, shardFieldNames]

/-- VoidBots puts a shard field in the payload exactly when both shard
parameters are truthy. -/
theorem hasShardField_voidBots :
    ∀ (b t : String) (sc : Int) (uc vc scnt sid : Option Int),
    hasShardField (VoidBots.post b t sc uc vc scnt sid) =
      (intTruthy sid && intTruthy scnt) := by
  intro b t sc uc vc scnt sid
  simp only [VoidBots.post]
  cases h : intTruthy sid && intTruthy scnt <;>
    simp [hasShardField, shardFieldNames]

/-- WonderBotList puts a shard field in the payload exactly when both
shard parameters are truthy. -/
theorem hasShardField_wonderBotList :
    ∀ (b t : String) (sc : Int) (uc vc scnt sid : Option Int),
    hasShardField (WonderBotList.post b t sc uc vc scnt sid) =
      (intTruthy sid && intTruthy scnt) := by
  intro b t sc uc vc scnt sid
  simp only [WonderBotList.post]
  cases h : intTruthy sid && intTruthy scnt <;>
    simp [hasShardField, shardFieldNames]

/-- YABL never puts shard fields in the payload. -/
theorem hasShardField_yabl :
    ∀ (b t : String) (sc : Int) (uc vc scnt sid : Option Int),
    hasShardField (YABL.post b t sc uc vc scnt sid) = false := by
  intro b t sc uc vc scnt sid
  simp [hasShardField, YABL.post, shardFieldNames]

/-- Claim C10.  For every bundled service descriptor, the built payload
contains a shard field exactly when the descriptor is shard-capable and
both the shard_id and shard_count parameters are truthy (None and 0 are
falsy); in particular, a post with shard_id = 0 (the first valid shard
index) and any shard_count — positive included — produces a payload with
no shard fields at all. -/
theorem shard_fields_only_when_both_truthy :
    (∀ (tag : ServiceTag) (b t : String) (sc : Int) (uc vc scnt sid : Option Int),
      hasShardField (servicePost tag b t sc uc vc scnt sid) =
        (shardCapable tag && (intTruthy sid && intTruthy scnt)))
    ∧ (∀ (tag : ServiceTag) (b t : String) (sc : Int) (uc vc : Option Int) (n : Int),
      hasShardField (servicePost tag b t sc uc vc (some n) (some 0)) = false) := by
  have hmain : ∀ (tag : ServiceTag) (b t : String) (sc : Int)
      (uc vc scnt sid : Option Int),
      hasShardField (servicePost tag b t sc uc vc scnt sid) =
        (shardCapable tag && (intTruthy sid && intTruthy scnt)) := by
    intro tag b t sc uc vc scnt sid
    cases tag
    case bladeList => exact hasShardField_bladeList b t sc uc vc scnt sid
    case blist => exact hasShardField_blist b t sc uc vc scnt sid
    case botsOnDiscord => exact hasShardField_botsOnDiscord b t sc uc vc scnt sid
    case carbon => exact hasShardField_carbon b t sc uc vc scnt sid
    case dbots => exact hasShardField_dbots b t sc uc vc scnt sid
    case discordBoats => exact hasShardField_discordBoats b t sc uc vc scnt sid
    case discordBotList => exact hasShardField_discordBotList b t sc uc vc scnt sid
    case discordBotlistEU => exact hasShardField_discordBotlistEU b t sc uc vc scnt sid
    case discordBotsGG => exact hasShardField_discordBotsGG b t sc uc vc scnt sid
    case discordExtremeList => exact hasShardField_discordExtremeList b t sc uc vc scnt sid
    case discordLabs => exact hasShardField_discordLabs b t sc uc vc scnt sid
    case discordListSpace => exact hasShardField_discordListSpace b t sc uc vc scnt sid
    case discordListology => exact hasShardField_discordListology b t sc uc vc scnt sid
    case discordServices => exact hasShardField_discordServices b t sc uc vc scnt sid
    case discordsCom => exact hasShardField_discordsCom b t sc uc vc scnt sid
    case disforge => exact hasShardField_disforge b t sc uc vc scnt sid
    case fatesList => exact hasShardField_fatesList b t sc uc vc scnt sid
    case infinityBotList => exact hasShardField_infinityBotList b t sc uc vc scnt sid
    case listcord => exact hasShardField_listcord b t sc uc vc scnt sid
    case motionBotlist => exact hasShardField_motionBotlist b t sc uc vc scnt sid
    case spaceBotsList => exact hasShardField_spaceBotsList b t sc uc vc scnt sid
    case topCord => exact hasShardField_topCord b t sc uc vc scnt sid
    case topGG => exact hasShardField_topGG b t sc uc vc scnt sid
    case voidBots => exact hasShardField_voidBots b t sc uc vc scnt sid
    case wonderBotList => exact hasShardField_wonderBotList b t sc uc vc scnt sid
    case yabl => exact hasShardField_yabl b t sc uc vc scnt sid
  refine ⟨hmain, ?_⟩
  intro tag b t sc uc vc n
  rw [hmain]
  simp [intTruthy]

end Dbots
